import Mathlib

/-!
Verification of the BrazoRobotiConIA arm-control core.

This file gives a shallow embedding, in Lean 4, of the parts of the
repository that the claims C1..C10 talk about:

* the onboard VEX program `definitivo/arm_system/vex_brain/src/main.py`
  (mapping aggregator, control module's shortest-path angle seeking,
  safety module's gripper action, the scan service loop, and the
  pick/place sub-dispatch), and
* the host-side link manager
  `definitivo/arm_system/communication/serial_manager.py`
  (byte framer, `wait_for_confirmation`, `_process_message`,
  `get_scan_data`).

Conventions of the embedding:
* Python floats (angles, distances, currents, clock readings) are
  modelled as rationals `ℚ`; Python `%` on floats with a positive
  divisor agrees with `qmod360` below.
* Stateful loops are modelled as explicit state-passing recursion with
  a fuel argument; `none` means the loop has not finished within the
  given fuel.
* The environment (sensor readings, wall-clock samples, incoming
  status updates) is a function of the loop-iteration index.  Each loop
  iteration is modelled with one clock sample; sub-iteration clock
  drift is immaterial to the claims checked here.
* Messages written to the serial port are collected in lists.
-/

namespace Brazo

/-! ## Common arithmetic: Python float `% 360` and `round(x, 1)` -/

/-- Python `x % 360.0` for a rational `x`: the representative of `x`
modulo 360 lying in `[0, 360)` (Python's float `%` takes the sign of
the divisor). -/
def qmod360 (x : ℚ) : ℚ := x - 360 * (⌊x / 360⌋ : ℤ)

/-- Round to the nearest integer, ties to even, as Python's `round`
does on exact values. -/
def roundHalfEven (x : ℚ) : ℤ :=
  let f := ⌊x⌋
  let r := x - f
  if r < 1/2 then f
  else if 1/2 < r then f + 1
  else if f % 2 = 0 then f else f + 1

/-- Python `round(x, 1)`: round to one decimal digit. (Python rounds
the nearest representable double; on the exact decimal values arising
in the claims below the two agree.) -/
def round1 (x : ℚ) : ℚ := (roundHalfEven (10 * x) : ℤ) / 10

/-! ## Motor command vocabulary (VEX IQ motor API) -/

/-- VEX spin directions. -/
inductive Direction
  | forward
  | reverse
deriving DecidableEq, Repr

/-- The four arm joints of the onboard `ControlModule`. -/
inductive Joint
  | base
  | shoulder
  | elbow
  | gripper
deriving DecidableEq, Repr

/-- VEX motor stopping modes passed to `Motor.stop`. -/
inductive StopMode
  | brake
  | hold
deriving DecidableEq, Repr

/-- A single actuator command issued by the onboard code.
`stop j none` is `motor.stop()` with the motor's default stopping
mode. -/
inductive MotorCmd
  | spin (j : Joint) (d : Direction) (speed : ℚ)
  | stop (j : Joint) (m : Option StopMode)
deriving DecidableEq, Repr

/-! ## MappingModule (vex_brain/src/main.py, lines 126-165)

`current_object` is the tuple `(start, end, max_size, distance,
tracking)`; `tracking = false` is the idle accumulator. -/

/-- The in-progress detection accumulator
`MappingModule.current_object`. -/
structure CurrentObject where
  start : ℚ
  endAngle : ℚ
  max_size : ℚ
  distance : ℚ
  tracking : Bool
deriving DecidableEq, Repr

/-- One finalized object record appended to `objects_map`. -/
structure ObjRec where
  center_angle : ℚ
  width : ℚ
  distance : ℚ
  max_size : ℚ
deriving DecidableEq, Repr

/-- The whole `MappingModule` state. -/
structure MapState where
  objects_map : List ObjRec
  current_object : CurrentObject
deriving DecidableEq, Repr

/-- The state set up by `MappingModule.__init__`. -/
def init_map_state : MapState :=
  { objects_map := [], current_object := ⟨0, 0, 0, 0, false⟩ }

/-- `MappingModule._save_object(end_angle)`: close the accumulator,
computing the width with 0°/360° wraparound and the wrapped center,
append the record and reset the accumulator to idle. -/
def save_object (st : MapState) (end_angle : ℚ) : MapState :=
  let start := st.current_object.start
  let total := if start ≤ end_angle then end_angle - start else end_angle + 360 - start
  let center := qmod360 (start + total / 2)
  { objects_map := st.objects_map ++
      [⟨round1 center, round1 total, st.current_object.distance, st.current_object.max_size⟩],
    current_object := ⟨0, 0, 0, 0, false⟩ }

/-- `MappingModule.process_object_detection(angle, size, dist)`: one
aggregator tick. -/
def process_object_detection (st : MapState) (angle size dist : ℚ) : MapState :=
  if 0 < size then
    if st.current_object.tracking = false then
      { st with current_object := ⟨angle, angle, size, dist, true⟩ }
    else
      { st with current_object :=
          ⟨st.current_object.start, angle,
           max st.current_object.max_size size,
           st.current_object.distance, true⟩ }
  else if st.current_object.tracking then
    save_object st angle
  else
    st

/-- Feed a list of `(angle, size, dist)` ticks to the aggregator. -/
def runMapping (st : MapState) (ticks : List (ℚ × ℚ × ℚ)) : MapState :=
  ticks.foldl (fun s t => process_object_detection s t.1 t.2.1 t.2.2) st

/-- The seam-crossing detection stream of claim C3: nonzero-size ticks
at 350°, 355°, 0°, 5°, 10°, then a zero-size tick. -/
def seamStream : List (ℚ × ℚ × ℚ) :=
  [(350, 5, 100), (355, 5, 100), (0, 5, 100), (5, 5, 100), (10, 5, 100), (10, 0, 100)]

/-! ## ControlModule.move_motor_to_angle (vex_brain/src/main.py, lines 180-192)

`delta = (target - current + 360) % 360`, folded to `(-180, 180]` by
subtracting 360 when above 180; the motor spins `FORWARD` if
`delta > 0`, else `REVERSE`, while the measured heading is more than
2° away from `(current + delta) % 360`, and is then stopped. -/

/-- The signed shortest-path delta computed by `move_motor_to_angle`. -/
def moveDelta (current target : ℚ) : ℚ :=
  let delta := qmod360 (target - current + 360)
  if 180 < delta then delta - 360 else delta

/-- `direction = FORWARD if delta > 0 else REVERSE`. -/
def moveDirection (current target : ℚ) : Direction :=
  if 0 < moveDelta current target then Direction.forward else Direction.reverse

/-- The `while abs(get_angle() - target_angle) > 2` loop, reading the
heading trace `heading` from iteration `i` on.  Returns the issued
motor commands and the iteration at which the motor was stopped. -/
def moveLoop (heading : Nat → ℚ) (tgt speed : ℚ) (dir : Direction) (j : Joint) :
    Nat → Nat → Option (List MotorCmd × Nat)
  | _, 0 => none
  | i, fuel + 1 =>
    if 2 < |heading i - tgt| then
      match moveLoop heading tgt speed dir j (i + 1) fuel with
      | none => none
      | some (cmds, stopTick) => some (MotorCmd.spin j dir speed :: cmds, stopTick)
    else
      some ([MotorCmd.stop j none], i)

/-- `ControlModule.move_motor_to_angle` for the base motor: read the
heading at entry, compute delta, direction and wrapped target, then
run the dead-band loop. -/
def move_motor_to_angle (heading : Nat → ℚ) (target speed : ℚ) (i0 fuel : Nat) :
    Option (List MotorCmd × Nat) :=
  let current := heading i0
  let delta := moveDelta current target
  let dir := moveDirection current target
  let target_angle := qmod360 (current + delta)
  moveLoop heading target_angle speed dir Joint.base i0 fuel

/-! ## SafetyModule.gripper_action (vex_brain/src/main.py, lines 239-248)

Brakes shoulder and elbow, picks the threshold from the service name,
spins the gripper, and returns true exactly when the measured gripper
current exceeds the threshold (stopping the gripper with `HOLD` for
`pick` and `BRAKE` otherwise). -/

/-- `threshold = 0.5 if service == 'pick' else 0.3`. -/
def gripper_threshold (service : String) : ℚ :=
  if service == "pick" then 1/2 else 3/10

/-- Result of one `gripper_action` call: the motor commands issued, in
order, and the returned boolean. -/
structure GripperRun where
  cmds : List MotorCmd
  result : Bool
deriving DecidableEq, Repr

/-- `SafetyModule.gripper_action(action, service)`; `current` is the
gripper-motor current measured by the `get_current` call. -/
def gripper_action (action service : String) (current : ℚ) : GripperRun :=
  let pre := [MotorCmd.stop Joint.shoulder (some StopMode.brake),
              MotorCmd.stop Joint.elbow (some StopMode.brake),
              MotorCmd.spin Joint.gripper
                (if action == "open" then Direction.forward else Direction.reverse) 20]
  if gripper_threshold service < current then
    { cmds := pre ++
        [MotorCmd.stop Joint.gripper
          (some (if service == "pick" then StopMode.hold else StopMode.brake))],
      result := true }
  else
    { cmds := pre, result := false }

/-! ## The byte framer (serial_manager.py `_read_loop`, lines 112-130,
and vex_brain `read_message`, lines 38-49)

Both sides accumulate bytes into a buffer until the terminator byte
`\n` (10) is seen.  The order of operations at a terminator matters:

* `message = self.buffer.decode()` runs FIRST.  If the bytes are not
  valid UTF-8, `.decode()` raises; the buffer reset on the next line
  never executes.  On the host the exception is caught by the outer
  `except Exception` of `_read_loop` (the error is logged and the loop
  continues); onboard it propagates to the `run()` handler.  Either
  way the corrupt bytes stay in the buffer and are prepended to every
  later frame.
* only then `self.buffer = bytearray()` resets the buffer, and
  `json.loads` runs inside a `try`: a `JSONDecodeError` drops the
  frame with a logged error, and framing continues from the fresh
  buffer.

`decode` abstracts Python `bytes.decode()` (UTF-8), `jsonParse`
abstracts `json.loads`; both readers are total functions of the byte
stream. -/

/-- The outcome of one terminated frame. -/
inductive FrameEvent (Msg : Type)
  | decoded (m : Msg)
  | dropped
  | decodeFailed
deriving DecidableEq, Repr

/-- Run the framer over a byte stream, starting from buffer `buf`.
Returns the final buffer and the outcome of each terminated frame.
At a terminator, `decode` runs before the reset — on a decode failure
the buffer keeps its contents (the source resets only after a
successful `.decode()`); on success the buffer is reset and the text
is handed to `jsonParse`, whose failure drops the frame. -/
def runFramer {D Msg : Type} (decode : List Nat → Option D) (jsonParse : D → Option Msg) :
    List Nat → List Nat → List Nat × List (FrameEvent Msg)
  | buf, [] => (buf, [])
  | buf, b :: rest =>
    if b = 10 then
      match decode buf with
      | none =>
          let r := runFramer decode jsonParse buf rest
          (r.1, FrameEvent.decodeFailed :: r.2)
      | some text =>
          let r := runFramer decode jsonParse [] rest
          (r.1, (match jsonParse text with
                 | some m => FrameEvent.decoded m
                 | none => FrameEvent.dropped) :: r.2)
    else
      runFramer decode jsonParse (buf ++ [b]) rest

/-- A model of UTF-8 decoding sufficient for the framer claims: the
byte 0xFF (255) never occurs in valid UTF-8, so any buffer containing
it fails to decode; other buffers decode to themselves. -/
def utf8FailDecode : List Nat → Option (List Nat) :=
  fun l => if 255 ∈ l then none else some l

/-- A concrete `json.loads` stand-in: the one-byte text `A` parses to
the message `7`; everything else is unparseable JSON. -/
def jsonParseEx : List Nat → Option Nat :=
  fun l => if l = [65] then some 7 else none

/-! ## Host link manager (serial_manager.py)

`wait_for_confirmation(joint, timeout)` (lines 210-224) clears the
`movement_event`, then loops: while `elapsed < timeout`, return true if
`movement_status[joint]['state'] == 'completed'`, false if
`== 'error'`, else `movement_event.wait(0.1)` and re-poll.

`threading.Event.wait(0.1)` blocks for AT MOST 0.1 s: it returns
immediately while the event flag is set, and the loop never re-clears
the flag (it is set by `_process_message` on every pick/place message,
for any joint).  The environment therefore supplies the elapsed time
`gap i` between poll `i` and poll `i+1`, constrained only by
`0 < gap i ≤ 0.1`. -/

/-- The terminal values of `movement_status[joint]['state']` consulted
by the waiter; `none` stands for a missing entry, a missing `state`
key, or any other value. -/
inductive MoveState
  | completed
  | error
deriving DecidableEq, Repr

/-- The environment of one `wait_for_confirmation` call: the joint's
visible status at each poll, and the time spent between consecutive
polls. -/
structure WaitEnv where
  status : Nat → Option MoveState
  gap : Nat → ℚ

/-- The polling loop of `wait_for_confirmation`.  Arguments: poll
index, elapsed time, fuel.  Returns `(result, return time, return
poll)`. -/
def waitLoop (env : WaitEnv) (timeout : ℚ) : Nat → ℚ → Nat → Option (Bool × ℚ × Nat)
  | _, _, 0 => none
  | i, elapsed, fuel + 1 =>
    if elapsed < timeout then
      match env.status i with
      | some MoveState.completed => some (true, elapsed, i)
      | some MoveState.error => some (false, elapsed, i)
      | none => waitLoop env timeout (i + 1) (elapsed + env.gap i) fuel
    else
      some (false, elapsed, i)

/-- The concrete run refuting claim C8 as stated: the movement event
stays set (a message for another joint set it and nothing re-clears
it), so `Event.wait(0.1)` returns immediately and the first two polls
are only 0.01 s apart; moreover with 0.1 s polls the timeout return
lands after `timeout`. -/
def cexWaitEnv : WaitEnv :=
  { status := fun _ => none,
    gap := fun i => if i = 0 then 1/100 else 1/10 }

/-! ## Host shared state and `_process_message` (serial_manager.py,
lines 16-50 and 132-172) -/

/-- The `data` dict of an inbound pick/place message, as consulted by
the waiter: the joint it names and its `state` field (if terminal). -/
structure StatusRec where
  joint : String
  state : Option MoveState
deriving DecidableEq, Repr

/-- The host-side shared state of `CommunicationManager`. -/
structure HostState where
  movement_status : String → Option StatusRec
  current_angles : List (String × ℚ)
  safety_status : List (String × String)
  scan_complete_event : Bool
  movement_event : Bool
  angles_event : Bool
  scan_data : Option (List ObjRec)

/-- The state built by `CommunicationManager.__init__`: in particular
`scan_data = None`. -/
def init_host_state : HostState :=
  { movement_status := fun _ => none,
    current_angles := [],
    safety_status := [],
    scan_complete_event := false,
    movement_event := false,
    angles_event := false,
    scan_data := none }

/-- Inbound messages as classified by `_process_message`. -/
inductive HostMsg
  | check (state : String)
  | safety (data : List (String × String))
  | scanDetected (angle distance size : ℚ)
  | scanComplete (objects : List ObjRec)
  | pickPlace (rec : StatusRec)
  | currentAngles (angles : List (String × ℚ))
  | other

/-- `CommunicationManager._process_message`: the `detected` branch
spawns a classification thread (no shared field written); the
`complete` branch only sets `scan_complete_event` — it does NOT assign
`scan_data`, and no other branch does either. -/
def host_process_message (st : HostState) (m : HostMsg) : HostState :=
  match m with
  | HostMsg.check _ => st
  | HostMsg.safety d => { st with safety_status := d }
  | HostMsg.scanDetected _ _ _ => st
  | HostMsg.scanComplete _ => { st with scan_complete_event := true }
  | HostMsg.pickPlace rec =>
      { st with
        movement_status := fun j => if j = rec.joint then some rec else st.movement_status j,
        movement_event := true }
  | HostMsg.currentAngles a => { st with current_angles := a, angles_event := true }
  | HostMsg.other => st

/-- `CommunicationManager.get_scan_data(timeout)`: `fired` models
whether `scan_complete_event.wait(timeout)` returned true within the
timeout.  On success it returns the `scan_data` field (`none` models
Python `None`); on timeout it returns the empty list. -/
def get_scan_data (st : HostState) (fired : Bool) : Option (List ObjRec) :=
  if fired then st.scan_data else some []

/-- `stateOf` extracts the `state` field consulted by
`wait_for_confirmation` from a stored movement-status record. -/
def stateOfStatus (r : Option StatusRec) : Option MoveState :=
  match r with
  | none => none
  | some rec => rec.state

/-- `CommunicationManager.wait_for_confirmation(joint, timeout)`: the
entry clears `movement_event` ONLY — `movement_status` is left
untouched, so poll 0 observes whatever record the previous command
left behind; later polls observe the updates stream. -/
def wait_for_confirmation (st : HostState) (joint : String)
    (updates : Nat → Option MoveState) (gap : Nat → ℚ) (timeout : ℚ) (fuel : Nat) :
    Option (Bool × ℚ × Nat) :=
  let env : WaitEnv :=
    { status := fun i => if i = 0 then stateOfStatus (st.movement_status joint) else updates i,
      gap := gap }
  waitLoop env timeout 0 0 fuel

/-! ## Onboard perception and pick/place dispatch
(vex_brain/src/main.py, lines 105-122 and 398-466)

The environment supplies one clock sample and one reading of each
sensor per loop iteration.  `set_stopping` calls and the LED colour
changes are omitted; spin/stop commands are collected where a claim
could depend on them. -/

/-- The value returned by
`PerceptionModule.process_sensor_distance(sensor, min_d, max_d)`. -/
structure SensorReading where
  distance : ℚ
  size : ℚ
  detected : Bool
deriving DecidableEq, Repr

/-- `process_sensor_distance`: detected iff `min_d <= dist <= max_d`;
`size` is the raw object size when detected and 0 otherwise. -/
def process_sensor_distance (dist rawsize min_d max_d : ℚ) : SensorReading :=
  if min_d ≤ dist ∧ dist ≤ max_d then
    { distance := dist, size := rawsize, detected := true }
  else
    { distance := dist, size := 0, detected := false }

/-- The environment of the onboard control loops: wall-clock sample,
gripper distance-sensor reading and raw size, bumper state, gripper
motor current and inertial heading at each loop iteration. -/
structure ArmEnv where
  t : Nat → ℚ
  gripDist : Nat → ℚ
  gripSize : Nat → ℚ
  bumper : Nat → Bool
  gripCurrent : Nat → ℚ
  heading : Nat → ℚ

/-- `SafetyModule.check_shoulder_safety(speed_forward, speed_reverse)`:
if the bumper is pressed, stop everything, back the shoulder off and
hold, returning true; otherwise drive shoulder forward / elbow in
compensating reverse and return false (the caller loops). -/
def check_shoulder_safety (pressed : Bool) (speed_forward speed_reverse : ℚ) :
    Bool × List MotorCmd :=
  if pressed then
    (true, [MotorCmd.stop Joint.base none, MotorCmd.stop Joint.shoulder none,
            MotorCmd.stop Joint.elbow none, MotorCmd.stop Joint.gripper none,
            MotorCmd.spin Joint.shoulder Direction.reverse speed_reverse,
            MotorCmd.stop Joint.shoulder (some StopMode.hold)])
  else
    (false, [MotorCmd.spin Joint.shoulder Direction.forward speed_forward,
             MotorCmd.spin Joint.elbow Direction.reverse 40])

/-- `RoboticServices._execute_pick_place_sequence(object_distance,
action)`: deadline `start + 20` s; each iteration reads the gripper
distance sensor thresholded to `[0, 40]`; a `pick` succeeds on
detection, a non-`pick` action succeeds once 3 s have elapsed;
otherwise the shoulder/elbow spin at distance-dependent speeds and the
loop re-checks the deadline.  Returns the boolean result and the spin
commands issued; `some false` is the deadline path (`return False`). -/
def execute_pick_place_sequence (env : ArmEnv) (object_distance : ℚ) (action : String) :
    Nat → Nat → Option (Bool × List MotorCmd)
  | _, 0 => none
  | i, fuel + 1 =>
    if env.t i < env.t 0 + 20 then
      let data := process_sensor_distance (env.gripDist i) (env.gripSize i) 0 40
      if action == "pick" then
        if data.detected then some (true, [])
        else
          let speeds : ℚ × ℚ := if 160 < object_distance then (15, 30) else (10, 0)
          match execute_pick_place_sequence env object_distance action (i + 1) fuel with
          | none => none
          | some (b, cmds) =>
              some (b, MotorCmd.spin Joint.shoulder Direction.reverse speeds.1 ::
                       MotorCmd.spin Joint.elbow Direction.forward speeds.2 :: cmds)
      else
        if 3 ≤ env.t i - env.t 0 then some (true, [])
        else
          match execute_pick_place_sequence env object_distance action (i + 1) fuel with
          | none => none
          | some (b, cmds) =>
              some (b, MotorCmd.spin Joint.shoulder Direction.reverse 20 ::
                       MotorCmd.spin Joint.elbow Direction.forward 60 :: cmds)
    else
      some (false, [])

/-- The `while not shoulder_complete` loop of the arm `up` action:
first iteration at which `check_shoulder_safety(80, 10)` returns
true. -/
def shoulder_loop (env : ArmEnv) : Nat → Nat → Option Nat
  | _, 0 => none
  | i, fuel + 1 =>
    if (check_shoulder_safety (env.bumper i) 80 10).1 then some i
    else shoulder_loop env (i + 1) fuel

/-- The `while not gripper_completed` loop of the gripper joint: loops
`gripper_action(action, 'pick')` (note: service `'pick'` even for
`place_service`) until it returns true. -/
def gripper_loop (env : ArmEnv) (action : String) : Nat → Nat → Option Nat
  | _, 0 => none
  | i, fuel + 1 =>
    if (gripper_action action "pick" (env.gripCurrent i)).result then some i
    else gripper_loop env action (i + 1) fuel

/-- Messages the onboard program writes to the serial port. -/
inductive ArmMsg
  | completed (msgType joint : String)
  | completedBase (msgType : String) (target actual accuracy : ℚ)
  | scanDetected (angle distance size : ℚ)
  | scanComplete (objects : List ObjRec)
  | errorEvent (msgType joint err : String)
deriving DecidableEq, Repr

/-- The `data` dict of an inbound pick/place command, with Python
`dict.get` defaults already resolved (`speed` defaults to 20, the
gripper `action` to `'close'`). -/
structure PPData where
  joint : String
  angle : ℚ
  distance : ℚ
  action : String
  speed : ℚ
deriving DecidableEq, Repr

/-- `RoboticServices._pick_place_service(msg_type, data)` on runs where
no exception is raised: returns the list of messages sent for the
command, or `none` if a sub-loop is still running after `fuel`
iterations.  Note the `arm`/`pick`/`place` branch: a `completed`
message is sent only when `_execute_pick_place_sequence` returns True —
on the False (20-second deadline) return NOTHING is sent. -/
def pick_place_service (env : ArmEnv) (fuel : Nat) (msgType : String) (d : PPData) :
    Option (List ArmMsg) :=
  if d.joint == "base" then
    let angle := if 180 < d.angle then d.angle - 4 else d.angle + 4
    match move_motor_to_angle env.heading (angle + 4) d.speed 0 fuel with
    | none => none
    | some (_, stopTick) =>
        some [ArmMsg.completedBase msgType d.angle (env.heading stopTick)
                |d.angle - env.heading stopTick|]
  else if d.joint == "arm" then
    if d.action == "pick" || d.action == "place" then
      match execute_pick_place_sequence env d.distance d.action 0 fuel with
      | none => none
      | some (true, _) => some [ArmMsg.completed msgType "arm"]
      | some (false, _) => some []
    else if d.action == "up" then
      match shoulder_loop env 0 fuel with
      | none => none
      | some _ => some [ArmMsg.completed msgType "arm"]
    else some []
  else if d.joint == "gripper" then
    match gripper_loop env d.action 0 fuel with
    | none => none
    | some _ => some [ArmMsg.completed msgType "gripper"]
  else some []

/-- The environment refuting claim C1: the gripper distance sensor
never sees the object (reading 1000, outside `[0, 40]`), and the clock
advances 10 s per iteration, so the 20-second deadline is reached at
iteration 2. -/
def cexArmEnv : ArmEnv :=
  { t := fun i => 10 * i,
    gripDist := fun _ => 1000,
    gripSize := fun _ => 0,
    bumper := fun _ => false,
    gripCurrent := fun _ => 0,
    heading := fun _ => 0 }

/-! ## The scan service (vex_brain/src/main.py, lines 261-396 and 480-483)

`process_message` on an inbound `scan_service` command stores the
commanded speed, calls `reset_scan_variables` — which sets
`timeout: 30`, although `__init__` had set `timeout: 40` — and marks
the scan active.  `run_service('scan')` then loops: phase A
(`_execute_start_scan`) records the start time and spins the base
motor; phase B (`_execute_scan_service`) accumulates absolute wrapped
rotation, feeds the perception/mapping pipeline, emits `detected`
events, and reports done when `accumulated_rotation >= 360` or
`time - start_time >= timeout`; on done the loop stops the motor,
closes, and a single `complete` message with the collected objects is
sent, after which `scan_active` is cleared. -/

/-- Environment of one scan run: wall-clock, inertial heading, base
distance sensor and its raw object size, per loop iteration. -/
structure ScanEnv where
  t : Nat → ℚ
  heading : Nat → ℚ
  dist : Nat → ℚ
  rawsize : Nat → ℚ

/-- `self.scan_variables`. -/
structure ScanVars where
  scan_start : Bool
  scan_update : Bool
  scan_end : Bool
  start_time : ℚ
  last_angle : ℚ
  accumulated_rotation : ℚ
  timeout : ℚ
  pause_for_object : Bool
deriving DecidableEq, Repr

/-- The scan variables set by `RoboticServices.__init__`
(`timeout: 40`). -/
def init_scan_vars : ScanVars :=
  { scan_start := true, scan_update := false, scan_end := false,
    start_time := 0, last_angle := 0, accumulated_rotation := 0,
    timeout := 40, pause_for_object := false }

/-- `RoboticServices.reset_scan_variables` (`timeout: 30`), run on
every inbound `scan_service` command before the scan starts. -/
def reset_scan_variables : ScanVars :=
  { scan_start := true, scan_update := false, scan_end := false,
    start_time := 0, last_angle := 0, accumulated_rotation := 0,
    timeout := 30, pause_for_object := false }

/-- The onboard state relevant to a scan run: scan variables, the
mapping module, whether the base motor is running, the scan-active
service flag, and the commanded speed (`scan_params[3]`). -/
structure ArmScanState where
  vars : ScanVars
  mapping : MapState
  motorOn : Bool
  scan_active : Bool
  speed : ℚ
deriving DecidableEq, Repr

/-- The onboard state after `RoboticServices.__init__`. -/
def init_arm_scan_state : ArmScanState :=
  { vars := init_scan_vars, mapping := init_map_state,
    motorOn := false, scan_active := false, speed := 20 }

/-- The `scan_service` branch of `RoboticServices.process_message`:
store the commanded speed, reset the scan variables (timeout
becomes 30) and activate the scan. -/
def process_scan_command (st : ArmScanState) (speed : ℚ) : ArmScanState :=
  { st with vars := reset_scan_variables, scan_active := true, speed := speed }

/-- The onboard wrap of an angle difference into `(-180, 180]` used by
`_execute_scan_service` for the rotation delta. -/
def wrapDelta (d : ℚ) : ℚ :=
  if 180 < d then d - 360 else if d < -180 then d + 360 else d

/-- `RoboticServices._execute_start_scan` (phase A): record the start
time, spin the base motor. -/
def execute_start_scan (env : ScanEnv) (i : Nat) (st : ArmScanState) :
    ArmScanState × Bool :=
  if st.vars.scan_end then (st, false)
  else ({ st with vars := { st.vars with start_time := env.t i }, motorOn := true }, true)

/-- `RoboticServices._execute_scan_service` (one phase-B tick):
accumulate the absolute wrapped heading delta, read the base distance
sensor thresholded to `[50, 345]`, handle the pause-and-report-detected
logic, feed the mapping aggregator, and report done when the
accumulated rotation reaches 360° or the elapsed time reaches the
timeout, stopping the base motor in that case.  Returns the new state,
the done flag, and the messages sent this tick. -/
def execute_scan_step (env : ScanEnv) (i : Nat) (st : ArmScanState) :
    ArmScanState × Bool × List ArmMsg :=
  let current := env.heading i
  let delta := wrapDelta (current - st.vars.last_angle)
  let acc := st.vars.accumulated_rotation + |delta|
  let data := process_sensor_distance (env.dist i) (env.rawsize i) 50 345
  let pm : Bool × Bool × List ArmMsg :=
    if data.detected = true ∧ st.vars.pause_for_object = false then
      (true, true, [ArmMsg.scanDetected current data.distance data.size])
    else if data.detected = false then (false, st.motorOn, [])
    else (st.vars.pause_for_object, st.motorOn, [])
  let mapping := process_object_detection st.mapping current data.size data.distance
  let done : Bool := decide (360 ≤ acc ∨ st.vars.timeout ≤ env.t i - st.vars.start_time)
  ({ st with
     vars := { st.vars with
               last_angle := current
               accumulated_rotation := acc
               pause_for_object := pm.1 }
     mapping := mapping
     motorOn := if done then false else pm.2.1 },
   done, pm.2.2)

/-- The `while not self.scan_variables['scan_end']` loop of
`run_service('scan')`.  Returns the state on exit, the exit iteration,
and the messages sent during the loop. -/
def scan_loop (env : ScanEnv) : ArmScanState → Nat → Nat → Option (ArmScanState × Nat × List ArmMsg)
  | _, _, 0 => none
  | st, i, fuel + 1 =>
    if st.vars.scan_end then some (st, i, [])
    else if st.vars.scan_start then
      let p := execute_start_scan env i st
      let st2 :=
        if p.2 then
          { p.1 with vars := { p.1.vars with scan_start := false, scan_update := true } }
        else p.1
      scan_loop env st2 (i + 1) fuel
    else if st.vars.scan_update then
      let p := execute_scan_step env i st
      let st2 :=
        if p.2.1 then
          { p.1 with vars :=
              { p.1.vars with scan_end := true, scan_start := true, scan_update := false } }
        else p.1
      match scan_loop env st2 (i + 1) fuel with
      | none => none
      | some (stF, n, rest) => some (stF, n, p.2.2 ++ rest)
    else scan_loop env st (i + 1) fuel

/-- `run_service('scan')`: run the loop, then collect the object map
(`get_objects_map` empties it), send the single `complete` message
carrying it, and clear `scan_active`. -/
def run_scan_service (env : ScanEnv) (st : ArmScanState) (fuel : Nat) :
    Option (ArmScanState × Nat × List ArmMsg) :=
  match scan_loop env st 0 fuel with
  | none => none
  | some (st1, n, msgs) =>
      some ({ st1 with
              mapping := { st1.mapping with objects_map := [] }
              scan_active := false },
            n, msgs ++ [ArmMsg.scanComplete st1.mapping.objects_map])

/-- The `(last_angle, accumulated_rotation)` pair after the phase-B
ticks `1..j`, starting from the reset values `(0, 0)`. -/
def scan_acc (env : ScanEnv) : Nat → ℚ × ℚ
  | 0 => (0, 0)
  | j + 1 =>
    let p := scan_acc env j
    let d := wrapDelta (env.heading (j + 1) - p.1)
    (env.heading (j + 1), p.2 + |d|)

/-- The phase-B termination condition at tick `j` for a run whose
timeout field is `TO` and whose start time is `env.t 0`. -/
def scan_done_cond (env : ScanEnv) (TO : ℚ) (j : Nat) : Prop :=
  360 ≤ (scan_acc env j).2 ∨ TO ≤ env.t j - env.t 0

instance scan_done_cond_dec (env : ScanEnv) (TO : ℚ) (j : Nat) :
    Decidable (scan_done_cond env TO j) :=
  inferInstanceAs (Decidable (360 ≤ (scan_acc env j).2 ∨ TO ≤ env.t j - env.t 0))

/-- Number of `complete`-state scan messages in a message list. -/
def countComplete (l : List ArmMsg) : Nat :=
  (l.filter fun m => match m with
    | ArmMsg.scanComplete _ => true
    | _ => false).length

/-- The environment refuting claim C6: heading constant (no rotation
accumulates), no object in range, clock advancing 2 s per loop
iteration. -/
def cexScanEnv : ScanEnv :=
  { t := fun i => 15 * i,
    heading := fun _ => 0,
    dist := fun _ => 400,
    rawsize := fun _ => 0 }

/-- The witness environment for the amended C6: the heading advances
120° per tick, so the accumulated rotation reaches 360° at tick 3. -/
def wScanEnv : ScanEnv :=
  { t := fun i => (i : ℚ),
    heading := fun j => if j % 3 = 0 then 0 else if j % 3 = 1 then 120 else 240,
    dist := fun _ => 400,
    rawsize := fun _ => 0 }

/-! ## Theorems -/

theorem qmod360_nonneg (x : ℚ) : 0 ≤ qmod360 x := by
  have h := Int.floor_le (x / 360)
  unfold qmod360
  nlinarith

theorem qmod360_lt (x : ℚ) : qmod360 x < 360 := by
  have h := Int.lt_floor_add_one (x / 360)
  unfold qmod360
  nlinarith

theorem qmod360_eq_self {x : ℚ} (h0 : 0 ≤ x) (h1 : x < 360) : qmod360 x = x := by
  have hf : ⌊x / 360⌋ = 0 := by
    rw [Int.floor_eq_zero_iff]
    constructor
    · positivity
    · rw [div_lt_one (by norm_num : (0:ℚ) < 360)]
      simpa using h1
  simp [qmod360, hf]

theorem qmod360_add_int_mul (x : ℚ) (k : ℤ) : qmod360 (x + 360 * k) = qmod360 x := by
  unfold qmod360
  have h : (x + 360 * k) / 360 = x / 360 + k := by
    field_simp
    ring
  rw [h, Int.floor_add_int]
  push_cast
  ring

/-- Claim C3: feeding the idle aggregator a detection stream whose
nonzero-size ticks advance from 350° through 10° across the 0°/360°
seam, followed by a zero-size tick, produces exactly one object record
with `center_angle = 0` and `width = 20` (not two disjoint records),
and leaves the accumulator idle. -/
theorem C3_seam_single_record :
    (runMapping init_map_state seamStream).objects_map = [⟨0, 20, 100, 5⟩] ∧
    (runMapping init_map_state seamStream).objects_map.length = 1 ∧
    (runMapping init_map_state seamStream).current_object.tracking = false := by
  refine ⟨?_, ?_, ?_⟩ <;>
    norm_num [runMapping, seamStream, process_object_detection, save_object,
      init_map_state, qmod360, round1, roundHalfEven]

/-- Claim C4: starting from any idle accumulator, a stream of ticks
whose size argument is always 0 never appends an object record and
leaves the mapping state (hence the accumulator) unchanged after every
tick. -/
theorem C4_zero_stream_idle (st : MapState) (hidle : st.current_object.tracking = false)
    (ticks : List (ℚ × ℚ × ℚ)) (hz : ∀ t ∈ ticks, t.2.1 = 0) :
    runMapping st ticks = st := by
  induction ticks with
  | nil => rfl
  | cons t rest ih =>
    have hz0 : t.2.1 = 0 := hz t (by simp)
    have hstep : process_object_detection st t.1 t.2.1 t.2.2 = st := by
      rw [hz0]
      simp [process_object_detection, hidle]
    have : runMapping st (t :: rest) = runMapping (process_object_detection st t.1 t.2.1 t.2.2) rest := rfl
    rw [this, hstep]
    exact ih (fun u hu => hz u (by simp [hu]))

/-- Witness for C4: a concrete idle state and all-zero-size stream. -/
theorem C4_zero_stream_idle_witness :
    runMapping init_map_state [(10, 0, 100), (20, 0, 200), (30, 0, 50)] = init_map_state :=
  C4_zero_stream_idle init_map_state (by rfl) _ (by norm_num)

theorem moveLoop_spec (heading : Nat → ℚ) (tgt speed : ℚ) (dir : Direction) (j : Joint) :
    ∀ fuel i cmds stopTick,
      moveLoop heading tgt speed dir j i fuel = some (cmds, stopTick) →
      i ≤ stopTick ∧
      cmds = List.replicate (stopTick - i) (MotorCmd.spin j dir speed) ++ [MotorCmd.stop j none] ∧
      |heading stopTick - tgt| ≤ 2 ∧
      ∀ t, i ≤ t → t < stopTick → 2 < |heading t - tgt| := by
  intro fuel
  induction fuel with
  | zero => intro i cmds stopTick h; simp [moveLoop] at h
  | succ n ih =>
    intro i cmds stopTick h
    rw [moveLoop] at h
    by_cases hband : 2 < |heading i - tgt|
    · rw [if_pos hband] at h
      cases hrec : moveLoop heading tgt speed dir j (i + 1) n with
      | none => rw [hrec] at h; simp at h
      | some p =>
        rw [hrec] at h
        obtain ⟨cmds', stopTick'⟩ := p
        simp only [Option.some.injEq, Prod.mk.injEq] at h
        obtain ⟨hcmds, hstop⟩ := h
        obtain ⟨hle, hcmds', hband', hout⟩ := ih (i + 1) cmds' stopTick' hrec
        refine ⟨by omega, ?_, by rw [← hstop]; exact hband', ?_⟩
        · rw [← hcmds, hcmds', ← hstop]
          have hrep : stopTick' - i = (stopTick' - (i + 1)) + 1 := by omega
          rw [hrep, List.replicate_succ]
          simp
        · intro t hit htstop
          rw [← hstop] at htstop
          rcases Nat.eq_or_lt_of_le hit with heq | hlt
          · subst heq; exact hband
          · exact hout t hlt htstop
    · rw [if_neg hband] at h
      simp only [Option.some.injEq, Prod.mk.injEq] at h
      obtain ⟨hcmds, hstop⟩ := h
      subst hstop
      refine ⟨le_refl i, ?_, le_of_not_lt hband, ?_⟩
      · simp [← hcmds]
      · intro t hit htstop; omega

/-- Claim C2: for `a, b ∈ [0, 360)`, the delta computed by
`move_motor_to_angle` lies in `(-180, 180]`, satisfies
`(a + d) % 360 = b`, the motor direction is `FORWARD` for `d > 0` and
`REVERSE` otherwise, and the loop spins the base motor in that
direction exactly while the measured heading is more than 2° from the
wrapped target and then stops it. -/
theorem C2_move_motor_shortest_path (a b : ℚ)
    (ha0 : 0 ≤ a) (ha : a < 360) (hb0 : 0 ≤ b) (hb : b < 360) :
    (-180 < moveDelta a b ∧ moveDelta a b ≤ 180) ∧
    qmod360 (a + moveDelta a b) = b ∧
    (0 < moveDelta a b → moveDirection a b = Direction.forward) ∧
    (moveDelta a b ≤ 0 → moveDirection a b = Direction.reverse) ∧
    (∀ heading speed i0 fuel cmds stopTick, heading i0 = a →
      move_motor_to_angle heading b speed i0 fuel = some (cmds, stopTick) →
      cmds = List.replicate (stopTick - i0) (MotorCmd.spin Joint.base (moveDirection a b) speed) ++
        [MotorCmd.stop Joint.base none] ∧
      i0 ≤ stopTick ∧
      |heading stopTick - qmod360 (a + moveDelta a b)| ≤ 2 ∧
      ∀ t, i0 ≤ t → t < stopTick → 2 < |heading t - qmod360 (a + moveDelta a b)|) := by
  have h0 := qmod360_nonneg (b - a + 360)
  have h1 := qmod360_lt (b - a + 360)
  have hrange : -180 < moveDelta a b ∧ moveDelta a b ≤ 180 := by
    unfold moveDelta
    by_cases hgt : 180 < qmod360 (b - a + 360)
    · rw [if_pos hgt]; constructor <;> linarith
    · rw [if_neg hgt]; push_neg at hgt; constructor <;> linarith
  have hmod : qmod360 (a + moveDelta a b) = b := by
    have hkey : ∃ k : ℤ, a + moveDelta a b = b + 360 * k := by
      unfold moveDelta qmod360
      by_cases hgt : 180 < (b - a + 360) - 360 * (⌊(b - a + 360) / 360⌋ : ℤ)
      · refine ⟨-⌊(b - a + 360) / 360⌋, ?_⟩
        simp only [if_pos hgt]
        push_cast
        ring
      · refine ⟨1 - ⌊(b - a + 360) / 360⌋, ?_⟩
        simp only [if_neg hgt]
        push_cast
        ring
    obtain ⟨k, hk⟩ := hkey
    rw [hk, qmod360_add_int_mul, qmod360_eq_self hb0 hb]
  refine ⟨hrange, hmod, ?_, ?_, ?_⟩
  · intro hpos; simp [moveDirection, if_pos hpos]
  · intro hnp; simp [moveDirection, not_lt.mpr hnp]
  · intro heading speed i0 fuel cmds stopTick hh hrun
    unfold move_motor_to_angle at hrun
    rw [hh] at hrun
    obtain ⟨hle, hcmds, hband, hout⟩ :=
      moveLoop_spec heading (qmod360 (a + moveDelta a b)) speed (moveDirection a b)
        Joint.base fuel i0 cmds stopTick hrun
    exact ⟨hcmds, hle, hband, hout⟩

/-- Witness for C2: the spec scenario `a = 260`, `b = 270` gives
`d = 10` (forward, not 350° backward), and with a heading trace
advancing 5° per tick the loop stops at tick 2 after two forward spin
commands. -/
theorem C2_move_motor_shortest_path_witness :
    (-180 < moveDelta 260 270 ∧ moveDelta 260 270 ≤ 180) ∧
    qmod360 (260 + moveDelta 260 270) = 270 ∧
    ∃ cmds stopTick,
      move_motor_to_angle (fun t : Nat => (260 : ℚ) + 5 * t) 270 20 0 5 = some (cmds, stopTick) ∧
      cmds = List.replicate (stopTick - 0) (MotorCmd.spin Joint.base (moveDirection 260 270) 20) ++
        [MotorCmd.stop Joint.base none] := by
  have h := C2_move_motor_shortest_path 260 270
    (by norm_num) (by norm_num) (by norm_num) (by norm_num)
  have hrun : move_motor_to_angle (fun t : Nat => (260 : ℚ) + 5 * t) 270 20 0 5 =
      some ([MotorCmd.spin Joint.base Direction.forward 20,
             MotorCmd.spin Joint.base Direction.forward 20,
             MotorCmd.stop Joint.base none], 2) := by
    norm_num [move_motor_to_angle, moveLoop, moveDelta, moveDirection, qmod360]
  exact ⟨h.1, h.2.1, _, 2,
    hrun, (h.2.2.2.2 (fun t : Nat => (260 : ℚ) + 5 * t) 20 0 5 _ 2 (by norm_num) hrun).1⟩

/-- Claim C5: `gripper_action` first brakes the shoulder and elbow
motors; it returns true exactly when the measured current exceeds the
service-dependent threshold (`0.5` for `pick`, `0.3` for every other
service), in which case its last command stops the gripper with `HOLD`
for `pick` and `BRAKE` otherwise; below the threshold it returns
false. -/
theorem C5_gripper_action_threshold (action service : String) (current : ℚ) :
    (gripper_action action service current).cmds.take 2 =
      [MotorCmd.stop Joint.shoulder (some StopMode.brake),
       MotorCmd.stop Joint.elbow (some StopMode.brake)] ∧
    ((gripper_action action service current).result = true ↔
      gripper_threshold service < current) ∧
    gripper_threshold "pick" = 1/2 ∧
    (service ≠ "pick" → gripper_threshold service = 3/10) ∧
    ((gripper_action action service current).result = true →
      (gripper_action action service current).cmds.getLast? =
        some (MotorCmd.stop Joint.gripper
          (some (if service == "pick" then StopMode.hold else StopMode.brake)))) ∧
    (current < gripper_threshold service →
      (gripper_action action service current).result = false) := by
  refine ⟨?_, ?_, ?_, ?_, ?_, ?_⟩
  · by_cases h : gripper_threshold service < current <;>
      simp [gripper_action, h]
  · by_cases h : gripper_threshold service < current <;>
      simp [gripper_action, h]
  · simp [gripper_threshold]
  · intro h; simp [gripper_threshold, h]
  · intro hres
    by_cases h : gripper_threshold service < current
    · simp [gripper_action, h]
    · simp [gripper_action, h] at hres
  · intro hlt
    have h : ¬ gripper_threshold service < current := by linarith
    simp [gripper_action, h]

/-- Witness for C5: a closing pick at current `0.6 > 0.5` succeeds; an
opening place at current `0.2 < 0.3` does not. -/
theorem C5_gripper_action_threshold_witness :
    (gripper_action "close" "pick" (3/5)).result = true ∧
    (gripper_action "open" "place" (1/5)).result = false :=
  ⟨(C5_gripper_action_threshold "close" "pick" (3/5)).2.1.mpr
      (by norm_num [gripper_threshold]),
   (C5_gripper_action_threshold "open" "place" (1/5)).2.2.2.2.2
      (by rw [show gripper_threshold "place" = 3/10 from rfl]; norm_num)⟩

theorem runFramer_append {D Msg : Type} (decode : List Nat → Option D)
    (jsonParse : D → Option Msg) :
    ∀ (s1 buf rest : List Nat), 10 ∉ s1 →
      runFramer decode jsonParse buf (s1 ++ rest) =
        runFramer decode jsonParse (buf ++ s1) rest := by
  intro s1
  induction s1 with
  | nil => intro buf rest _; simp
  | cons b s ih =>
    intro buf rest hmem
    have hb : b ≠ 10 := fun h => hmem (h ▸ List.mem_cons_self b s)
    have hs : 10 ∉ s := fun h => hmem (List.mem_cons_of_mem b h)
    show runFramer decode jsonParse buf (b :: (s ++ rest)) = _
    rw [runFramer, if_neg hb, ih (buf ++ [b]) rest hs]
    simp

/-- Counterexample to claim C7: a terminated payload that is not
parseable JSON because it is not even valid UTF-8 (the byte 0xFF) is
NOT dropped-with-reset — `.decode()` raises before the reset, the
corrupt byte stays in the buffer, and the following well-formed frame
(`A` + terminator) is never decoded: fed alone it yields
`decoded 7`, but after the corrupt frame both terminators yield
`decodeFailed` and the buffer still holds the corrupt prefix. -/
theorem C7_framer_desync_counterexample :
    runFramer utf8FailDecode jsonParseEx [] [255, 10, 65, 10] =
      ([255, 65], [FrameEvent.decodeFailed, FrameEvent.decodeFailed]) ∧
    runFramer utf8FailDecode jsonParseEx [] [65, 10] =
      ([], [FrameEvent.decoded 7]) := by
  constructor <;> decide

/-- Claim C7, amended: when the terminator is seen and the payload
DECODES as text but is not parseable JSON, the frame is dropped with a
logged error, the buffer is reset, and the rest of the stream is
framed exactly as from a fresh buffer — such a corrupt message never
desynchronizes later framing (and the reader, a total function, does
not crash).  But when the payload fails to DECODE (non-UTF-8 bytes),
`.decode()` raises before the reset: the frame yields only a logged
error, the buffer KEEPS the corrupt bytes, and the rest of the stream
is framed with that prefix still in the buffer — one such payload can
desynchronize all subsequent framing. -/
theorem C7_framer_resync_amended {D Msg : Type} (decode : List Nat → Option D)
    (jsonParse : D → Option Msg) (s1 s2 : List Nat) (hterm : 10 ∉ s1) :
    (∀ d, decode s1 = some d → jsonParse d = none →
      (runFramer decode jsonParse [] (s1 ++ 10 :: s2)).2 =
        FrameEvent.dropped :: (runFramer decode jsonParse [] s2).2 ∧
      (runFramer decode jsonParse [] (s1 ++ 10 :: s2)).1 =
        (runFramer decode jsonParse [] s2).1) ∧
    (decode s1 = none →
      (runFramer decode jsonParse [] (s1 ++ 10 :: s2)).2 =
        FrameEvent.decodeFailed :: (runFramer decode jsonParse s1 s2).2 ∧
      (runFramer decode jsonParse [] (s1 ++ 10 :: s2)).1 =
        (runFramer decode jsonParse s1 s2).1) := by
  constructor
  · intro d hdec hbad
    rw [runFramer_append decode jsonParse s1 [] (10 :: s2) hterm]
    simp only [List.nil_append]
    rw [runFramer, if_pos rfl, hdec]
    simp [hbad]
  · intro hdec
    rw [runFramer_append decode jsonParse s1 [] (10 :: s2) hterm]
    simp only [List.nil_append]
    rw [runFramer, if_pos rfl, hdec]
    exact ⟨rfl, rfl⟩

/-- Witness for the amended C7: the decodable-but-unparseable payload
`B` is dropped and the following well-formed frame still decodes from
a fresh buffer; the undecodable payload 0xFF leaves itself in the
buffer for the rest of the stream. -/
theorem C7_framer_resync_amended_witness :
    ((runFramer utf8FailDecode jsonParseEx [] ([66] ++ 10 :: [65, 10])).2 =
      FrameEvent.dropped :: (runFramer utf8FailDecode jsonParseEx [] [65, 10]).2) ∧
    ((runFramer utf8FailDecode jsonParseEx [] ([255] ++ 10 :: [65, 10])).2 =
      FrameEvent.decodeFailed :: (runFramer utf8FailDecode jsonParseEx [255] [65, 10]).2) :=
  ⟨((C7_framer_resync_amended utf8FailDecode jsonParseEx [66] [65, 10] (by decide)).1
      [66] (by decide) (by decide)).1,
   ((C7_framer_resync_amended utf8FailDecode jsonParseEx [255] [65, 10] (by decide)).2
      (by decide)).1⟩

theorem waitLoop_result (env : WaitEnv) (timeout : ℚ)
    (hgap : ∀ i, env.gap i ≤ 1/10) :
    ∀ fuel i e r t j, e < timeout →
      waitLoop env timeout i e fuel = some (r, t, j) →
      (t < timeout → (r = true ↔ env.status j = some MoveState.completed)) ∧
      (timeout ≤ t → r = false ∧ t < timeout + 1/10) := by
  intro fuel
  induction fuel with
  | zero => intro i e r t j he h; simp [waitLoop] at h
  | succ n ih =>
    intro i e r t j he h
    rw [waitLoop, if_pos he] at h
    cases hst : env.status i with
    | some s =>
      cases s with
      | completed =>
        rw [hst] at h
        simp only [Option.some.injEq, Prod.mk.injEq] at h
        obtain ⟨hr, ht, hj⟩ := h
        subst hr; subst ht; subst hj
        exact ⟨fun _ => by simp [hst], fun hto => absurd he (not_lt.mpr hto)⟩
      | error =>
        rw [hst] at h
        simp only [Option.some.injEq, Prod.mk.injEq] at h
        obtain ⟨hr, ht, hj⟩ := h
        subst hr; subst ht; subst hj
        exact ⟨fun _ => by simp [hst], fun hto => absurd he (not_lt.mpr hto)⟩
    | none =>
      rw [hst] at h
      by_cases he' : e + env.gap i < timeout
      · exact ih (i + 1) (e + env.gap i) r t j he' h
      · cases n with
        | zero => simp [waitLoop] at h
        | succ m =>
          rw [waitLoop, if_neg he'] at h
          simp only [Option.some.injEq, Prod.mk.injEq] at h
          obtain ⟨hr, ht, hj⟩ := h
          subst hr; subst ht; subst hj
          have hg := hgap i
          exact ⟨fun hlt => absurd hlt (by push_neg at he' ⊢; exact he'),
                 fun _ => ⟨rfl, by linarith⟩⟩

theorem waitLoop_term (env : WaitEnv) (timeout δ : ℚ)
    (hδ : 0 < δ) (hg : ∀ i, δ ≤ env.gap i) :
    ∀ (n i : Nat) (e : ℚ), timeout ≤ e + (n : ℚ) * δ →
      (waitLoop env timeout i e (n + 1)).isSome = true := by
  intro n
  induction n with
  | zero =>
    intro i e hto
    rw [waitLoop]
    have : ¬ e < timeout := by push_cast at hto; push_neg; linarith
    rw [if_neg this]
    rfl
  | succ m ih =>
    intro i e hto
    rw [waitLoop]
    by_cases he : e < timeout
    · rw [if_pos he]
      cases hst : env.status i with
      | some s => cases s <;> rfl
      | none =>
        apply ih (i + 1) (e + env.gap i)
        have hgi := hg i
        push_cast at hto ⊢
        linarith
    · rw [if_neg he]; rfl

/-- Counterexample to claim C8: with `timeout = 0.25` s, the loop
polls twice within 0.01 s (faster than the claimed fixed 0.1 s
interval) and returns false only at 0.31 s after entry, later than
`timeout`.  The run is admissible: every inter-poll gap `g` satisfies
`0 < g ≤ 0.1`, which is all `Event.wait(0.1)` guarantees. -/
theorem C8_wait_for_confirmation_counterexample :
    waitLoop cexWaitEnv (1/4) 0 0 10 = some (false, 31/100, 4) ∧
    cexWaitEnv.gap 0 = 1/100 ∧
    ¬ ((1:ℚ)/10 ≤ cexWaitEnv.gap 0) ∧
    (0:ℚ) < cexWaitEnv.gap 0 ∧ cexWaitEnv.gap 0 ≤ 1/10 ∧
    ¬ ((31:ℚ)/100 ≤ 1/4) := by
  refine ⟨?_, ?_, ?_, ?_, ?_, ?_⟩ <;>
    norm_num [waitLoop, cexWaitEnv]

/-- Claim C8, amended: `wait_for_confirmation` waits at most 0.1 s
between polls (it may re-poll sooner whenever the movement event is
left set); on any return before `timeout` it returns true exactly when
the joint's state reads `completed` (hence within one polling interval
of the status being stored) and false on `error`; on a timeout return
the result is false and the return happens strictly before
`timeout + 0.1` after entry; and when every iteration takes at least
`δ > 0` the loop always terminates, never hanging indefinitely. -/
theorem C8_wait_for_confirmation_amended (env : WaitEnv) (timeout : ℚ)
    (hgap : ∀ i, 0 < env.gap i ∧ env.gap i ≤ 1/10) (hto : 0 < timeout) :
    (∀ fuel r t j, waitLoop env timeout 0 0 fuel = some (r, t, j) →
      (t < timeout → (r = true ↔ env.status j = some MoveState.completed)) ∧
      (timeout ≤ t → r = false ∧ t < timeout + 1/10)) ∧
    (∀ δ : ℚ, 0 < δ → (∀ i, δ ≤ env.gap i) → ∀ n : Nat, timeout ≤ (n : ℚ) * δ →
      (waitLoop env timeout 0 0 (n + 1)).isSome = true) := by
  constructor
  · intro fuel r t j h
    exact waitLoop_result env timeout (fun i => (hgap i).2) fuel 0 0 r t j hto h
  · intro δ hδ hg n hn
    apply waitLoop_term env timeout δ hδ hg n 0 0
    simpa using hn

/-- Witness for the amended C8: a run where the status becomes
`completed` at poll 2 returns true there, before the 1-second
timeout. -/
theorem C8_wait_for_confirmation_amended_witness :
    waitLoop
      { status := fun i => if i = 2 then some MoveState.completed else none,
        gap := fun _ => (1:ℚ)/10 } 1 0 0 10 = some (true, 2/10, 2) ∧
    (true = true ↔
      ({ status := fun i => if i = 2 then some MoveState.completed else none,
         gap := fun _ => (1:ℚ)/10 } : WaitEnv).status 2 = some MoveState.completed) := by
  have hrun : waitLoop
      { status := fun i => if i = 2 then some MoveState.completed else none,
        gap := fun _ => (1:ℚ)/10 } 1 0 0 10 = some (true, 2/10, 2) := by
    norm_num [waitLoop]
  have h := (C8_wait_for_confirmation_amended
      { status := fun i => if i = 2 then some MoveState.completed else none,
        gap := fun _ => (1:ℚ)/10 } 1
      (fun i => ⟨by norm_num, by norm_num⟩) (by norm_num)).1 10 true (2/10) 2 hrun
  exact ⟨hrun, h.1 (by norm_num)⟩

theorem host_scan_data_never_written (st : HostState) (msgs : List HostMsg) :
    (msgs.foldl host_process_message st).scan_data = st.scan_data := by
  induction msgs generalizing st with
  | nil => rfl
  | cons m rest ih =>
    show (rest.foldl host_process_message (host_process_message st m)).scan_data = _
    rw [ih (host_process_message st m)]
    cases m <;> rfl

/-- Claim C10: after any sequence of inbound messages processed by the
reading loop (including scan `complete` messages carrying object
lists), `scan_data` still holds its initial `None`; hence
`get_scan_data` returns `None` whenever the scan-complete event fires
within the timeout, and `[]` otherwise — the objects list carried in
the complete message is never returned. -/
theorem C10_get_scan_data_returns_none (msgs : List HostMsg) (fired : Bool) :
    get_scan_data (msgs.foldl host_process_message init_host_state) fired =
      if fired then none else some [] := by
  unfold get_scan_data
  rw [host_scan_data_never_written init_host_state msgs]
  rfl

/-- Claim C9: `wait_for_confirmation` does not clear
`movement_status[joint]` on entry, so a call made while a previous
command's terminal status is still stored returns immediately at poll
0 with elapsed time 0 — true on a stale `completed`, false on a stale
`error` — without waiting for any confirmation of the new command. -/
theorem C9_stale_status_immediate_return (st : HostState) (joint : String)
    (updates : Nat → Option MoveState) (gap : Nat → ℚ) (timeout : ℚ) (fuel : Nat)
    (hto : 0 < timeout) :
    (stateOfStatus (st.movement_status joint) = some MoveState.completed →
      wait_for_confirmation st joint updates gap timeout (fuel + 1) = some (true, 0, 0)) ∧
    (stateOfStatus (st.movement_status joint) = some MoveState.error →
      wait_for_confirmation st joint updates gap timeout (fuel + 1) = some (false, 0, 0)) := by
  constructor <;> intro hst <;>
    simp [wait_for_confirmation, waitLoop, hto, hst]

/-- Witness for C9: a host state holding a stale `completed` record
for joint `base` makes the next wait return true immediately. -/
theorem C9_stale_status_immediate_return_witness :
    wait_for_confirmation
      { init_host_state with
        movement_status := fun j =>
          if j = "base" then some ⟨"base", some MoveState.completed⟩ else none }
      "base" (fun _ => none) (fun _ => 1/10) 30 10 = some (true, 0, 0) :=
  (C9_stale_status_immediate_return _ "base" (fun _ => none) (fun _ => 1/10) 30 9
    (by norm_num)).1 (by simp [stateOfStatus])

/-- Counterexample to claim C1: an accepted `pick_service` command for
joint `arm` with action `pick` whose sub-loop reaches the 20-second
deadline produces NO message at all — neither a completed event nor an
error event — leaving the host waiting.  (The deadline is reached:
at iteration 2 the clock reads 20 s after entry.) -/
theorem C1_pick_place_event_counterexample :
    pick_place_service cexArmEnv 5 "pick_service"
      { joint := "arm", angle := 0, distance := 100, action := "pick", speed := 20 } =
      some [] ∧
    ¬ (cexArmEnv.t 2 < cexArmEnv.t 0 + 20) := by
  constructor
  · norm_num [pick_place_service, execute_pick_place_sequence, process_sensor_distance,
      cexArmEnv]
    intro h
    exact absurd h (by decide)
  · norm_num [cexArmEnv]

/-- Claim C1, amended: for every accepted pick/place command, a
`completed` event is sent when the joint's sub-loop terminates —
base-joint move loop, gripper-action loop, arm `up` safety loop, and
the arm pick/place sequence when it succeeds; but when the arm
pick/place sequence reaches its 20-second deadline it returns False
and NO event is emitted for the command (the host is released only by
its own `wait_for_confirmation` timeout). -/
theorem C1_pick_place_events_amended (env : ArmEnv) (fuel : Nat) (msgType : String)
    (d : PPData) :
    (d.joint = "arm" → (d.action = "pick" ∨ d.action = "place") →
      ∀ b cmds, execute_pick_place_sequence env d.distance d.action 0 fuel = some (b, cmds) →
        pick_place_service env fuel msgType d =
          some (if b then [ArmMsg.completed msgType "arm"] else [])) ∧
    (d.joint = "base" → ∀ cmds stopTick,
      move_motor_to_angle env.heading
        ((if 180 < d.angle then d.angle - 4 else d.angle + 4) + 4) d.speed 0 fuel =
        some (cmds, stopTick) →
      pick_place_service env fuel msgType d =
        some [ArmMsg.completedBase msgType d.angle (env.heading stopTick)
                |d.angle - env.heading stopTick|]) ∧
    (d.joint = "arm" → d.action = "up" → ∀ k, shoulder_loop env 0 fuel = some k →
      pick_place_service env fuel msgType d = some [ArmMsg.completed msgType "arm"]) ∧
    (d.joint = "gripper" → ∀ k, gripper_loop env d.action 0 fuel = some k →
      pick_place_service env fuel msgType d = some [ArmMsg.completed msgType "gripper"]) := by
  refine ⟨?_, ?_, ?_, ?_⟩
  · intro hj ha b cmds hseq
    rcases ha with ha | ha <;>
    · simp only [pick_place_service, hj, ha] at *
      simp only [hseq]
      cases b <;> simp
  · intro hj cmds stopTick hmove
    simp only [pick_place_service, hj]
    simp only [hmove]
    simp
  · intro hj ha k hloop
    simp only [pick_place_service, hj, ha]
    simp only [hloop]
    simp
  · intro hj k hloop
    simp only [pick_place_service, hj]
    simp only [hloop]
    simp

/-- Witness for the amended C1: a pick whose gripper sensor sees the
object at iteration 1 sends exactly one `completed` event for joint
`arm`; and on the deadline run of the counterexample environment the
same dispatcher sends the empty message list. -/
theorem C1_pick_place_events_amended_witness :
    pick_place_service
      { t := fun i => (i : ℚ), gripDist := fun i => if i = 0 then 1000 else 10,
        gripSize := fun _ => 5, bumper := fun _ => false,
        gripCurrent := fun _ => 0, heading := fun _ => 0 } 5 "pick_service"
      { joint := "arm", angle := 0, distance := 100, action := "pick", speed := 20 } =
      some [ArmMsg.completed "pick_service" "arm"] := by
  have hseq : execute_pick_place_sequence
      { t := fun i => (i : ℚ), gripDist := fun i => if i = 0 then 1000 else 10,
        gripSize := fun _ => 5, bumper := fun _ => false,
        gripCurrent := fun _ => 0, heading := fun _ => 0 } 100 "pick" 0 5 =
      some (true, [MotorCmd.spin Joint.shoulder Direction.reverse 10,
                   MotorCmd.spin Joint.elbow Direction.forward 0]) := by
    norm_num [execute_pick_place_sequence, process_sensor_distance]
  have h := (C1_pick_place_events_amended
      { t := fun i => (i : ℚ), gripDist := fun i => if i = 0 then 1000 else 10,
        gripSize := fun _ => 5, bumper := fun _ => false,
        gripCurrent := fun _ => 0, heading := fun _ => 0 } 5 "pick_service"
      { joint := "arm", angle := 0, distance := 100, action := "pick", speed := 20 }).1
      rfl (Or.inl rfl) true _ hseq
  simpa using h

theorem countComplete_append (a b : List ArmMsg) :
    countComplete (a ++ b) = countComplete a + countComplete b := by
  simp [countComplete]

theorem execute_scan_step_no_complete (env : ScanEnv) (i : Nat) (st : ArmScanState) :
    countComplete (execute_scan_step env i st).2.2 = 0 := by
  unfold execute_scan_step
  by_cases h1 : (process_sensor_distance (env.dist i) (env.rawsize i) 50 345).detected = true ∧
      st.vars.pause_for_object = false
  · simp [h1, countComplete]
  · by_cases h2 : (process_sensor_distance (env.dist i) (env.rawsize i) 50 345).detected = false
    · simp [h1, h2, countComplete]
    · have hp : st.vars.pause_for_object = true := by
        cases hpv : st.vars.pause_for_object
        · cases hd : (process_sensor_distance (env.dist i) (env.rawsize i) 50 345).detected
          · exact absurd hd h2
          · exact absurd ⟨hd, hpv⟩ h1
        · rfl
      simp [h1, h2, hp, countComplete]

theorem execute_scan_step_invariants (env : ScanEnv) (TO : ℚ) (j : Nat) (st : ArmScanState)
    (hj : 1 ≤ j)
    (hlast : st.vars.last_angle = (scan_acc env (j - 1)).1)
    (hacc : st.vars.accumulated_rotation = (scan_acc env (j - 1)).2)
    (hstart : st.vars.start_time = env.t 0)
    (hTO : st.vars.timeout = TO) :
    (execute_scan_step env j st).2.1 = decide (scan_done_cond env TO j) ∧
    (execute_scan_step env j st).1.vars.last_angle = (scan_acc env j).1 ∧
    (execute_scan_step env j st).1.vars.accumulated_rotation = (scan_acc env j).2 ∧
    (execute_scan_step env j st).1.vars.start_time = env.t 0 ∧
    (execute_scan_step env j st).1.vars.timeout = TO ∧
    (execute_scan_step env j st).1.vars.scan_start = st.vars.scan_start ∧
    (execute_scan_step env j st).1.vars.scan_update = st.vars.scan_update ∧
    (execute_scan_step env j st).1.vars.scan_end = st.vars.scan_end ∧
    ((execute_scan_step env j st).2.1 = true → (execute_scan_step env j st).1.motorOn = false) := by
  obtain ⟨j', rfl⟩ : ∃ j', j = j' + 1 := ⟨j - 1, by omega⟩
  have hsucc : scan_acc env (j' + 1) =
      (env.heading (j' + 1),
       (scan_acc env j').2 + |wrapDelta (env.heading (j' + 1) - (scan_acc env j').1)|) := by
    rw [scan_acc]
  have hred : j' + 1 - 1 = j' := by omega
  rw [hred] at hlast hacc
  refine ⟨?_, ?_, ?_, ?_, ?_, ?_, ?_, ?_, ?_⟩
  · simp only [execute_scan_step]
    refine decide_eq_decide.mpr ?_
    unfold scan_done_cond
    rw [hsucc, hlast, hacc, hstart, hTO]
  · simp only [execute_scan_step, hsucc]
  · simp only [execute_scan_step, hsucc, hlast, hacc]
  · simp only [execute_scan_step, hstart]
  · simp only [execute_scan_step, hTO]
  · simp only [execute_scan_step]
  · simp only [execute_scan_step]
  · simp only [execute_scan_step]
  · intro hdone
    simp only [execute_scan_step] at hdone ⊢
    rw [hdone]
    simp

theorem scan_loop_mid (env : ScanEnv) (TO : ℚ) (k : Nat)
    (hck : scan_done_cond env TO k)
    (hmin : ∀ j, 1 ≤ j → j < k → ¬ scan_done_cond env TO j) :
    ∀ fuel j st, 1 ≤ j → j ≤ k → k + 2 - j ≤ fuel →
      st.vars.scan_start = false → st.vars.scan_update = true → st.vars.scan_end = false →
      st.vars.last_angle = (scan_acc env (j - 1)).1 →
      st.vars.accumulated_rotation = (scan_acc env (j - 1)).2 →
      st.vars.start_time = env.t 0 → st.vars.timeout = TO →
      ∃ stF msgs, scan_loop env st j fuel = some (stF, k + 1, msgs) ∧
        stF.motorOn = false ∧ stF.vars.scan_end = true ∧ stF.vars.timeout = TO ∧
        countComplete msgs = 0 := by
  intro fuel
  induction fuel with
  | zero => intro j st h1 hk hf; omega
  | succ n ih =>
    intro j st h1 hk hf hss hsu hse hlast hacc hstart hTO
    obtain ⟨hdone, hlast', hacc', hstart', hTO', hss', hsu', hse', hmotor⟩ :=
      execute_scan_step_invariants env TO j st h1 hlast hacc hstart hTO
    rw [scan_loop, if_neg (by rw [hse]; exact Bool.false_ne_true),
        if_neg (by rw [hss]; exact Bool.false_ne_true), if_pos hsu]
    dsimp only
    rcases Nat.eq_or_lt_of_le hk with hjk | hjk
    · subst hjk
      have hd : (execute_scan_step env j st).2.1 = true := by
        rw [hdone]; exact decide_eq_true hck
      rw [if_pos hd]
      obtain ⟨n', rfl⟩ : ∃ n', n = n' + 1 := ⟨n - 1, by omega⟩
      rw [scan_loop]
      rw [if_pos rfl]
      refine ⟨_, _, rfl, ?_, rfl, ?_, ?_⟩
      · exact hmotor hd
      · exact hTO'
      · rw [List.append_nil]
        exact execute_scan_step_no_complete env j st
    · have hd : (execute_scan_step env j st).2.1 = false := by
        rw [hdone]
        exact decide_eq_false (hmin j h1 hjk)
      rw [if_neg (by rw [hd]; exact Bool.false_ne_true)]
      have hred : j + 1 - 1 = j := by omega
      obtain ⟨stF, msgs, heq, hm, he, ht, hc⟩ :=
        ih (j + 1) (execute_scan_step env j st).1 (by omega) (by omega) (by omega)
          (by rw [hss', hss]) (by rw [hsu', hsu]) (by rw [hse', hse])
          (by rw [hred]; exact hlast') (by rw [hred]; exact hacc') hstart' hTO'
      rw [heq]
      refine ⟨stF, (execute_scan_step env j st).2.2 ++ msgs, rfl, hm, he, ht, ?_⟩
      rw [countComplete_append, hc, execute_scan_step_no_complete]

/-- Claim C6, amended: for every scan run started by an inbound
`scan_service` command, the phase-B loop terminates exactly at the
first tick where the accumulated absolute rotation reaches 360° or the
elapsed time since scan start reaches the configured timeout — which
is 30 seconds on such runs, because `reset_scan_variables` overwrites
the constructor's 40 with 30 before every run; on termination the base
motor is stopped and a single `scan_service` `complete` message
carrying the finalized object list is emitted, after which the scan
service is no longer active. -/
theorem C6_scan_termination_amended (env : ScanEnv) (st : ArmScanState) (speed : ℚ)
    (k fuel : Nat) (hk1 : 1 ≤ k) (hck : scan_done_cond env 30 k)
    (hmin : ∀ j, 1 ≤ j → j < k → ¬ scan_done_cond env 30 j)
    (hfuel : k + 2 ≤ fuel) :
    ∃ stF msgs objs,
      run_scan_service env (process_scan_command st speed) fuel = some (stF, k + 1, msgs) ∧
      stF.motorOn = false ∧ stF.scan_active = false ∧ stF.vars.scan_end = true ∧
      stF.vars.timeout = 30 ∧
      countComplete msgs = 1 ∧ msgs.getLast? = some (ArmMsg.scanComplete objs) ∧
      stF.mapping.objects_map = [] := by
  obtain ⟨f, rfl⟩ : ∃ f, fuel = f + 1 := ⟨fuel - 1, by omega⟩
  have hstep1 : scan_loop env (process_scan_command st speed) 0 (f + 1) =
      scan_loop env
        { vars := { scan_start := false, scan_update := true, scan_end := false,
                    start_time := env.t 0, last_angle := 0, accumulated_rotation := 0,
                    timeout := 30, pause_for_object := false },
          mapping := st.mapping, motorOn := true, scan_active := true, speed := speed }
        1 f := by
    rw [scan_loop]
    simp [process_scan_command, reset_scan_variables, execute_start_scan]
  obtain ⟨stF, msgs, heq, hm, he, ht, hc⟩ :=
    scan_loop_mid env 30 k hck hmin f 1
      { vars := { scan_start := false, scan_update := true, scan_end := false,
                  start_time := env.t 0, last_angle := 0, accumulated_rotation := 0,
                  timeout := 30, pause_for_object := false },
        mapping := st.mapping, motorOn := true, scan_active := true, speed := speed }
      (by omega) hk1 (by omega) rfl rfl rfl rfl rfl rfl rfl
  unfold run_scan_service
  rw [hstep1, heq]
  refine ⟨_, msgs ++ [ArmMsg.scanComplete stF.mapping.objects_map],
    stF.mapping.objects_map, rfl, hm, rfl, he, ht, ?_, ?_, rfl⟩
  · rw [countComplete_append, hc]
    rfl
  · simp

/-- Counterexample to claim C6: on a scan run started by an inbound
`scan_service` command, the loop terminates (emitting its single
`complete` event) at tick 3, when the accumulated rotation is still 0
(< 360°) and the elapsed time is exactly 30 s — less than the claimed
40-second default.  The run's configured timeout field is 30, not 40:
`reset_scan_variables` overwrites the constructor's 40 before every
command-started run, so the claimed termination condition
(rotation ≥ 360° or elapsed ≥ 40 s) never held during the run. -/
theorem C6_scan_timeout_counterexample :
    (run_scan_service cexScanEnv (process_scan_command init_arm_scan_state 20) 6).map
        (fun r => (r.1.vars.accumulated_rotation, r.1.vars.timeout, r.2.1,
                   countComplete r.2.2)) =
      some (0, 30, 3, 1) ∧
    cexScanEnv.t 2 - cexScanEnv.t 0 = 30 ∧
    ¬ ((360:ℚ) ≤ 0) ∧ ¬ ((40:ℚ) ≤ 30) := by
  refine ⟨?_, by norm_num [cexScanEnv], by norm_num, by norm_num⟩
  norm_num [run_scan_service, scan_loop, execute_scan_step, execute_start_scan,
    process_sensor_distance, process_object_detection, wrapDelta,
    process_scan_command, reset_scan_variables, init_arm_scan_state, init_scan_vars,
    init_map_state, countComplete, cexScanEnv]

/-- Witness for the amended C6: with 120°-per-tick rotation the first
tick satisfying the termination condition is `k = 3`, and the run
stops the motor there and emits the single `complete` message. -/
theorem C6_scan_termination_amended_witness :
    ∃ stF msgs objs,
      run_scan_service wScanEnv (process_scan_command init_arm_scan_state 20) 5 =
        some (stF, 4, msgs) ∧
      stF.motorOn = false ∧ stF.scan_active = false ∧ stF.vars.scan_end = true ∧
      stF.vars.timeout = 30 ∧
      countComplete msgs = 1 ∧ msgs.getLast? = some (ArmMsg.scanComplete objs) ∧
      stF.mapping.objects_map = [] :=
  C6_scan_termination_amended wScanEnv init_arm_scan_state 20 3 5 (by norm_num)
    (by left; norm_num [scan_acc, wrapDelta, wScanEnv])
    (by
      intro j hj1 hj3
      interval_cases j <;>
        norm_num [scan_done_cond, scan_acc, wrapDelta, wScanEnv])
    (by norm_num)

end Brazo
